import Mathlib

/-!
# Verification of `virtual-list` (`src/List.tsx`)

Shallow embedding of the virtual list component in `src/List.tsx`.
Pixel magnitudes and scroll percentages are rational numbers (JS numbers on
the exercised inputs behave as exact rationals here); item indices stored in
component state are integers, since the JS arithmetic (`index - beforeCount`,
`dataSource.length - 1`, …) ranges over possibly-negative integers before
clamping.

The component imports `getScrollPercentage` and `getLocationItem` from
`./util`, a file that is not part of the sources; those two functions are
modelled from the spec (sections 4.1 and 4.2) and are marked as such.
Everything else is translated directly from `src/List.tsx`.
-/

namespace VirtualList

/-- The render phase of the state machine (`ListState.status` in the source):
`NONE | MEASURE_START | MEASURE_DONE`. -/
inductive Status where
  | NONE
  | MEASURE_START
  | MEASURE_DONE
deriving DecidableEq, Repr

/-- The component state record (`ListState` in the source).  `scrollTop` is
`number | null` in the source, hence `Option ℚ` here; it starts as `null`. -/
@[ext]
structure ListState where
  status : Status
  scrollTop : Option ℚ
  scrollPtg : ℚ
  itemIndex : ℤ
  itemOffsetPtg : ℚ
  startIndex : ℤ
  endIndex : ℤ
  startItemTop : ℚ
deriving DecidableEq, Repr

/-- The initial state literal from the source (`state: ListState = { ... }`). -/
def initialState : ListState :=
  { status := Status.NONE
    scrollTop := none
    scrollPtg := 0
    itemIndex := 0
    itemOffsetPtg := 0
    startIndex := 0
    endIndex := 0
    startItemTop := 0 }

/-- The props the windowing logic reads: `dataSource` (only its length matters
to the index arithmetic), the optional viewport `height`, and `itemHeight`
(defaulted to `15` by `defaultProps`). -/
structure ListProps where
  dataLength : ℕ
  height : Option ℚ
  itemHeight : ℚ
deriving DecidableEq, Repr

/-- The geometry read off the scroll container DOM node (`this.listRef.current`):
`scrollTop`, `scrollHeight` and `clientHeight`. -/
structure ScrollEnv where
  scrollTop : ℚ
  scrollHeight : ℚ
  clientHeight : ℚ
deriving DecidableEq, Repr

/-- Modelled from the spec: `getScrollPercentage` from `./util`, which is
absent from the sources.  Spec 4.1: output is the normalized scroll
percentage; at the boundary where scrollable height equals viewport height it
is defined as `0` (no meaningful scroll range) to avoid division by zero. -/
def getScrollPercentage (env : ScrollEnv) : ℚ :=
  if env.scrollHeight = env.clientHeight then 0
  else env.scrollTop / (env.scrollHeight - env.clientHeight)

/-- Modelled from the spec: `getLocationItem` from `./util`, which is absent
from the sources.  Spec 4.2: `index = floor(percentage × N)` clamped to
`[0, N−1]`, and the offset fraction is the remainder of `percentage × N`
beyond `index`. -/
def getLocationItem (scrollPtg : ℚ) (count : ℕ) : ℤ × ℚ :=
  let index : ℤ := max 0 (min ⌊scrollPtg * (count : ℚ)⌋ ((count : ℤ) - 1))
  (index, scrollPtg * (count : ℚ) - (index : ℚ))

/-- `onScroll` (source lines 113–140).  It destructures `dataSource`, `height`
and `itemHeight` from the props; it only ever runs on the virtualized path
(the fast path attaches neither the scroll listener nor the ref), where the
`height` prop is a number, so the embedding takes the numeric height directly.
If the node's `scrollTop` equals the one in state the handler returns with the
state untouched; otherwise `setState` merges the listed fields, leaving
`startItemTop` at its previous value. -/
def onScroll (dataLength : ℕ) (height itemHeight : ℚ) (env : ScrollEnv)
    (s : ListState) : ListState :=
  if some env.scrollTop = s.scrollTop then s
  else
    let scrollPtg := getScrollPercentage env
    let loc := getLocationItem scrollPtg dataLength
    let visibleCount : ℤ := ⌈height / itemHeight⌉
    let beforeCount : ℤ := ⌈scrollPtg * (visibleCount : ℚ)⌉
    let afterCount : ℤ := ⌈(1 - scrollPtg) * (visibleCount : ℚ)⌉
    { s with
      status := Status.MEASURE_START
      scrollTop := some env.scrollTop
      scrollPtg := scrollPtg
      itemIndex := loc.1
      itemOffsetPtg := loc.2
      startIndex := max 0 (loc.1 - beforeCount)
      endIndex := min ((dataLength : ℤ) - 1) (loc.1 + afterCount) }

/-- A value returned by `getItemKey`: either the numeric index fallback or the
value read off the item's configured key field. -/
inductive ItemKeyVal where
  | idx (n : ℕ)
  | field (v : ℤ)
deriving DecidableEq, Repr

/-- `getItemKey` (source lines 142–146): `item && itemKey ? item[itemKey] : index`.
Items are objects (truthy when present), so a missing or falsy item is `none`;
field access on an item is a total function from field names.  A configured
`itemKey` that is the empty string is falsy in JS, hence the explicit test. -/
def getItemKey (dataSource : List (Option (String → ℤ))) (itemKey : Option String)
    (index : ℕ) : ItemKeyVal :=
  match dataSource.getD index none, itemKey with
  | some item, some k => if k = "" then ItemKeyVal.idx index else ItemKeyVal.field (item k)
  | _, _ => ItemKeyVal.idx index

/-- The backward walk of `componentDidUpdate` (source lines 97–99):
`for (index = itemIndex - 1; index >= startIndex; index -= 1)` subtracts
`itemElementHeights[key] || 0` for each index; `n` is the number of loop
iterations, so the indices visited are `startIndex + n - 1, …, startIndex`. -/
def subtractTotal (heights : ℤ → Option ℚ) (startIndex : ℤ) : ℕ → ℚ
  | 0 => 0
  | Nat.succ n => (heights (startIndex + (n : ℤ))).getD 0 + subtractTotal heights startIndex n

/-- The offset correction of `componentDidUpdate` (source lines 89–99): pin the
located item at `scrollTop + scrollPtg·clientHeight − itemOffsetPtg·height(itemIndex)`
and walk backward to `startIndex`, subtracting measured heights (`|| 0` for
unmeasured entries, hence `Option.getD 0`). -/
def correctedTop (heights : ℤ → Option ℚ) (scrollTop clientHeight : ℚ)
    (scrollPtg itemOffsetPtg : ℚ) (itemIndex startIndex : ℤ) : ℚ :=
  let locatedItemHeight := (heights itemIndex).getD 0
  let locatedItemTop := scrollPtg * clientHeight
  let locatedItemOffset := itemOffsetPtg * locatedItemHeight
  let locatedItemMergedTop := scrollTop + locatedItemTop - locatedItemOffset
  locatedItemMergedTop - subtractTotal heights startIndex (itemIndex - startIndex).toNat

/-- `componentDidUpdate` (source lines 78–108).  `heights` is the height cache
after the recording loop (its entries are DOM measurements, environment
inputs here); `refScrollTop`/`refClientHeight` are read off the container
node.  When `status` is `MEASURE_START` it stores the corrected
`startItemTop` and moves to `MEASURE_DONE`.  The data-source-length-change
branch (lines 105–107) only calls `console.log` and writes no state, so it
contributes nothing to the returned state. -/
def componentDidUpdate (prevLen newLen : ℕ) (heights : ℤ → Option ℚ)
    (refScrollTop refClientHeight : ℚ) (s : ListState) : ListState :=
  if s.status = Status.MEASURE_START then
    { s with
      status := Status.MEASURE_DONE
      startItemTop := correctedTop heights refScrollTop refClientHeight
        s.scrollPtg s.itemOffsetPtg s.itemIndex s.startIndex }
  else s

/-- Which branch of `render` produced the output. -/
inductive RenderKind where
  | fastPath
  | virtualized
deriving DecidableEq, Repr

/-- Observable output of one `render` pass: whether the `onScroll` listener and
the `listRef` are attached to the container, which data indices are rendered
(in order), and the `height`/`offset` handed to the `Filler` placeholder. -/
structure RenderOutput where
  kind : RenderKind
  hasScrollListener : Bool
  refAttached : Bool
  renderedIndices : List ℕ
  fillerHeight : Option ℚ
  fillerOffset : ℚ
deriving DecidableEq, Repr

/-- `dataSource.slice(startIndex, endIndex + 1)` rendered with their original
indices (the rendered window), for in-range integer bounds. -/
def windowIndices (dataLength : ℕ) (startIndex endIndex : ℤ) : List ℕ :=
  ((List.range dataLength).drop startIndex.toNat).take (endIndex + 1 - startIndex).toNat

/-- `render` (source lines 167–205).  If `height` is `undefined` or
`dataSource.length * itemHeight <= height`, the pure list renders: every item,
no `onScroll`, no `ref`, `Filler` gets the raw `height` and no offset.
Otherwise the virtualized container renders the window slice with the scroll
listener and ref attached, and the `Filler` offset is `startItemTop` exactly
when `status === 'MEASURE_DONE'`, else `0` (line 200). -/
def render (props : ListProps) (s : ListState) : RenderOutput :=
  match props.height with
  | none =>
    { kind := RenderKind.fastPath
      hasScrollListener := false
      refAttached := false
      renderedIndices := List.range props.dataLength
      fillerHeight := none
      fillerOffset := 0 }
  | some h =>
    if (props.dataLength : ℚ) * props.itemHeight ≤ h then
      { kind := RenderKind.fastPath
        hasScrollListener := false
        refAttached := false
        renderedIndices := List.range props.dataLength
        fillerHeight := some h
        fillerOffset := 0 }
    else
      { kind := RenderKind.virtualized
        hasScrollListener := true
        refAttached := true
        renderedIndices := windowIndices props.dataLength s.startIndex s.endIndex
        fillerHeight := some ((props.dataLength : ℚ) * props.itemHeight)
        fillerOffset := if s.status = Status.MEASURE_DONE then s.startItemTop else 0 }

/-- `componentDidMount` (source lines 69–72): it sets
`this.listRef.current.scrollTop = 0` and calls `onScroll`.  On the fast path
`render` never attaches `listRef`, so `this.listRef.current` is `null` and the
assignment throws a `TypeError`; `none` models that crash.  On the virtualized
path the node's `scrollTop` becomes `0` before `onScroll` reads it. -/
def componentDidMount (props : ListProps) (env : ScrollEnv) (s : ListState) :
    Option ListState :=
  match props.height with
  | none => none
  | some h =>
    if (props.dataLength : ℚ) * props.itemHeight ≤ h then none
    else some (onScroll props.dataLength h props.itemHeight { env with scrollTop := 0 } s)

/-- A height cache in which every entry was measured at 15 pixels (a uniform
list at the default nominal item height). -/
def uniformHeights : ℤ → Option ℚ := fun _ => some 15

/-- The props of the concrete 1000-item run: viewport 300, item height 15. -/
def c1Props : ListProps := ⟨1000, some 300, 15⟩

/-- Concrete run, first cycle, scroll phase: initial `onScroll` at offset 0. -/
def c1ScrollOne : ListState := onScroll 1000 300 15 ⟨0, 15000, 300⟩ initialState

/-- Concrete run, first cycle, measure phase. -/
def c1CycleOne : ListState := componentDidUpdate 1000 1000 uniformHeights 0 300 c1ScrollOne

/-- Concrete run, second cycle, scroll phase: accepted scroll to offset 150. -/
def c1ScrollTwo : ListState := onScroll 1000 300 15 ⟨150, 15000, 300⟩ c1CycleOne

/-- Concrete run, second cycle, measure phase: stores the corrected offset. -/
def c1CycleTwo : ListState := componentDidUpdate 1000 1000 uniformHeights 150 300 c1ScrollTwo

/-- Concrete run, third cycle, scroll phase: accepted scroll to offset 300. -/
def c1ScrollThree : ListState := onScroll 1000 300 15 ⟨300, 15000, 300⟩ c1CycleTwo

/-- A state carrying stale window bounds from a 1000-item cycle
(`startIndex = 500`, `endIndex = 520`) into a render where the data source has
shrunk to 10 items. -/
def c2StaleState : ListState :=
  { status := Status.MEASURE_DONE
    scrollTop := some 7500
    scrollPtg := 1/2
    itemIndex := 510
    itemOffsetPtg := 0
    startIndex := 500
    endIndex := 520
    startItemTop := 7500 }

/-! ## Helper lemmas -/

/-- When every cache entry holds the uniform height `h`, the backward walk over
`n` items subtracts exactly `n * h`. -/
lemma subtractTotal_const (heights : ℤ → Option ℚ) (h : ℚ) (si : ℤ)
    (hu : ∀ i, heights i = some h) : ∀ n : ℕ, subtractTotal heights si n = (n : ℚ) * h
  | 0 => by simp [subtractTotal]
  | Nat.succ n => by
    rw [subtractTotal, hu, subtractTotal_const heights h si hu n]
    simp only [Option.getD_some]
    push_cast
    ring

/-- The located index is clamped into `[0, N − 1]` for every scroll percentage
once the data source is non-empty. -/
lemma getLocationItem_index_bounds (p : ℚ) (N : ℕ) (hN : 1 ≤ N) :
    0 ≤ (getLocationItem p N).1 ∧ (getLocationItem p N).1 ≤ (N : ℤ) - 1 := by
  constructor
  · exact le_max_left _ _
  · refine max_le ?_ (min_le_right _ _)
    have : (1 : ℤ) ≤ (N : ℤ) := by exact_mod_cast hN
    omega

/-- The modelled Percentage Mapper yields a value in `[0,1]` whenever the DOM
geometry satisfies `0 ≤ scrollTop ≤ scrollHeight − clientHeight`. -/
lemma getScrollPercentage_mem (env : ScrollEnv) (h0 : 0 ≤ env.scrollTop)
    (h1 : env.scrollTop ≤ env.scrollHeight - env.clientHeight) :
    0 ≤ getScrollPercentage env ∧ getScrollPercentage env ≤ 1 := by
  unfold getScrollPercentage
  split
  · exact ⟨le_rfl, zero_le_one⟩
  · rename_i hne
    have hd : 0 < env.scrollHeight - env.clientHeight := by
      rcases lt_or_eq_of_le (h0.trans h1) with h | h
      · exact h
      · exact absurd (by linarith : env.scrollHeight = env.clientHeight) hne
    exact ⟨div_nonneg h0 hd.le, (div_le_one hd).mpr h1⟩

/-- The state produced by an accepted scroll event, written out explicitly. -/
lemma onScroll_accepted (dataLength : ℕ) (height itemHeight : ℚ) (env : ScrollEnv)
    (s : ListState) (hacc : ¬ some env.scrollTop = s.scrollTop) :
    onScroll dataLength height itemHeight env s =
      { s with
        status := Status.MEASURE_START
        scrollTop := some env.scrollTop
        scrollPtg := getScrollPercentage env
        itemIndex := (getLocationItem (getScrollPercentage env) dataLength).1
        itemOffsetPtg := (getLocationItem (getScrollPercentage env) dataLength).2
        startIndex := max 0 ((getLocationItem (getScrollPercentage env) dataLength).1 -
          ⌈getScrollPercentage env * ((⌈height / itemHeight⌉ : ℤ) : ℚ)⌉)
        endIndex := min ((dataLength : ℤ) - 1)
          ((getLocationItem (getScrollPercentage env) dataLength).1 +
            ⌈(1 - getScrollPercentage env) * ((⌈height / itemHeight⌉ : ℤ) : ℚ)⌉) } := by
  rw [onScroll, if_neg hacc]

/-- The `MEASURE_START → MEASURE_DONE` transition of `componentDidUpdate`,
written out explicitly. -/
lemma componentDidUpdate_measure (prevLen newLen : ℕ) (heights : ℤ → Option ℚ)
    (rTop rCH : ℚ) (s : ListState) (hs : s.status = Status.MEASURE_START) :
    componentDidUpdate prevLen newLen heights rTop rCH s =
      { s with
        status := Status.MEASURE_DONE
        startItemTop := correctedTop heights rTop rCH
          s.scrollPtg s.itemOffsetPtg s.itemIndex s.startIndex } := by
  rw [componentDidUpdate, if_pos hs]

/-- Evaluation of an accepted scroll transition from precomputed percentage,
location and ceiling values. -/
lemma onScroll_eval (dataLength : ℕ) (height itemHeight : ℚ) (env : ScrollEnv)
    (s : ListState) (hacc : ¬ some env.scrollTop = s.scrollTop)
    (p : ℚ) (hp : getScrollPercentage env = p)
    (i : ℤ) (off : ℚ) (hloc : getLocationItem p dataLength = (i, off))
    (v : ℤ) (hv : (⌈height / itemHeight⌉ : ℤ) = v)
    (b : ℤ) (hb : (⌈p * (v : ℚ)⌉ : ℤ) = b)
    (a : ℤ) (ha : (⌈(1 - p) * (v : ℚ)⌉ : ℤ) = a) :
    onScroll dataLength height itemHeight env s =
      { s with
        status := Status.MEASURE_START
        scrollTop := some env.scrollTop
        scrollPtg := p
        itemIndex := i
        itemOffsetPtg := off
        startIndex := max 0 (i - b)
        endIndex := min ((dataLength : ℤ) - 1) (i + a) } := by
  rw [onScroll_accepted dataLength height itemHeight env s hacc, hp, hloc, hv]
  dsimp only
  rw [hb, ha]

/-- Evaluation helper for integer ceilings of concrete rationals. -/
lemma ceil_eval (a : ℚ) (z : ℤ) (h1 : (z : ℚ) - 1 < a) (h2 : a ≤ (z : ℚ)) :
    (⌈a⌉ : ℤ) = z :=
  Int.ceil_eq_iff.mpr ⟨h1, h2⟩

/-- Closed form of the backward walk over the uniform 15-pixel cache. -/
lemma correctedTop_uniform15 (scrollTop cH p off : ℚ) (ii si : ℤ) (hle : si ≤ ii) :
    correctedTop uniformHeights scrollTop cH p off ii si =
      scrollTop + p * cH - off * 15 - ((ii : ℚ) - (si : ℚ)) * 15 := by
  have h2 : ((ii - si).toNat : ℤ) = ii - si := Int.toNat_of_nonneg (sub_nonneg.mpr hle)
  have hn : (((ii - si).toNat : ℕ) : ℚ) = (ii : ℚ) - (si : ℚ) := by
    exact_mod_cast congrArg (fun z : ℤ => (z : ℚ)) h2
  have hq : correctedTop uniformHeights scrollTop cH p off ii si =
      scrollTop + p * cH - off * ((uniformHeights ii).getD 0) -
        subtractTotal uniformHeights si (ii - si).toNat := rfl
  rw [hq, subtractTotal_const uniformHeights 15 si (fun _ => rfl), hn, uniformHeights]
  simp only [Option.getD_some]

/-! ## Claims -/

/-- C1 counterexample: a full two-cycle run (uniform 15-pixel items, viewport
300, 1000 items) followed by a third accepted scroll.  The second cycle stores
the corrected offset `135`; the third scroll re-enters `MEASURE_START` with
that value still in state, yet the render positions the window at offset `0`,
not at the previous cycle's corrected offset — refuting the claim that during
`MEASURE_START` the window renders at the prior corrected offset. -/
theorem c1_stale_offset_counterexample :
    c1CycleTwo.status = Status.MEASURE_DONE ∧
    c1CycleTwo.startItemTop = 135 ∧
    c1ScrollThree.status = Status.MEASURE_START ∧
    c1ScrollThree.startItemTop = 135 ∧
    (render c1Props c1ScrollThree).fillerOffset = 0 ∧
    ¬ (render c1Props c1ScrollThree).fillerOffset = c1CycleTwo.startItemTop := by
  have h1 : c1ScrollOne = ⟨Status.MEASURE_START, some 0, 0, 0, 0, 0, 20, 0⟩ := by
    rw [c1ScrollOne, onScroll_eval 1000 300 15 ⟨0, 15000, 300⟩ initialState
      (by simp [initialState])
      0 (by rw [getScrollPercentage]; norm_num)
      0 0 (by rw [getLocationItem]; norm_num)
      20 (by norm_num)
      0 (by norm_num)
      20 (by norm_num)]
    ext <;> simp [initialState]
  have h2 : c1CycleOne = ⟨Status.MEASURE_DONE, some 0, 0, 0, 0, 0, 20, 0⟩ := by
    rw [c1CycleOne, h1, componentDidUpdate_measure 1000 1000 uniformHeights 0 300 _ rfl]
    dsimp only
    rw [correctedTop_uniform15 0 300 0 0 0 0 le_rfl]
    ext <;> norm_num
  have h3 : c1ScrollTwo = ⟨Status.MEASURE_START, some 150, 1/98, 10, 10/49, 9, 30, 0⟩ := by
    rw [c1ScrollTwo, h2, onScroll_eval 1000 300 15 ⟨150, 15000, 300⟩ _
      (by norm_num)
      (1/98) (by rw [getScrollPercentage]; norm_num)
      10 (10/49) (by rw [getLocationItem]; norm_num)
      20 (by norm_num)
      1 (ceil_eval _ 1 (by norm_num) (by norm_num))
      20 (ceil_eval _ 20 (by norm_num) (by norm_num))]
    ext <;> norm_num
  have h4 : c1CycleTwo = ⟨Status.MEASURE_DONE, some 150, 1/98, 10, 10/49, 9, 30, 135⟩ := by
    rw [c1CycleTwo, h3, componentDidUpdate_measure 1000 1000 uniformHeights 150 300 _ rfl]
    dsimp only
    rw [correctedTop_uniform15 150 300 (1/98) (10/49) 10 9 (by norm_num)]
    ext <;> norm_num
  have h5 : c1ScrollThree.status = Status.MEASURE_START ∧
      c1ScrollThree.startItemTop = 135 := by
    rw [c1ScrollThree, onScroll_accepted 1000 300 15 ⟨300, 15000, 300⟩ c1CycleTwo
      (by rw [h4]; norm_num)]
    exact ⟨rfl, by rw [h4]⟩
  have hoffset : (render c1Props c1ScrollThree).fillerOffset =
      (if c1ScrollThree.status = Status.MEASURE_DONE then c1ScrollThree.startItemTop
        else 0) := by
    rw [c1Props]
    simp only [render]
    rw [if_neg (by norm_num : ¬ ((1000 : ℕ) : ℚ) * 15 ≤ 300)]
  have hzero : (render c1Props c1ScrollThree).fillerOffset = 0 := by
    rw [hoffset, h5.1]
    simp
  refine ⟨by rw [h4], by rw [h4], h5.1, h5.2, hzero, ?_⟩
  rw [hzero, h4]
  norm_num

/-- C1 (amended): on every accepted scroll event the component re-enters
`MEASURE_START` and the window renders at offset `0` — the previous cycle's
corrected offset is retained in state but deliberately not applied — and the
newly corrected offset is applied exactly once the phase reaches
`MEASURE_DONE` after the measure pass. -/
theorem c1_measure_start_renders_zero (props : ListProps) (hv : ℚ)
    (hh : props.height = some hv)
    (hvirt : ¬ (props.dataLength : ℚ) * props.itemHeight ≤ hv)
    (env : ScrollEnv) (s : ListState) (hacc : ¬ some env.scrollTop = s.scrollTop)
    (prevLen newLen : ℕ) (heights : ℤ → Option ℚ) (rTop rCH : ℚ) :
    (onScroll props.dataLength hv props.itemHeight env s).status =
      Status.MEASURE_START ∧
    (onScroll props.dataLength hv props.itemHeight env s).startItemTop =
      s.startItemTop ∧
    (render props (onScroll props.dataLength hv props.itemHeight env s)).fillerOffset
      = 0 ∧
    (componentDidUpdate prevLen newLen heights rTop rCH
        (onScroll props.dataLength hv props.itemHeight env s)).status =
      Status.MEASURE_DONE ∧
    (render props (componentDidUpdate prevLen newLen heights rTop rCH
        (onScroll props.dataLength hv props.itemHeight env s))).fillerOffset =
      (componentDidUpdate prevLen newLen heights rTop rCH
        (onScroll props.dataLength hv props.itemHeight env s)).startItemTop := by
  obtain ⟨N, ho, ih⟩ := props
  cases hh
  have hstart : (onScroll N hv ih env s).status = Status.MEASURE_START := by
    rw [onScroll_accepted N hv ih env s hacc]
  have hkeep : (onScroll N hv ih env s).startItemTop = s.startItemTop := by
    rw [onScroll_accepted N hv ih env s hacc]
  have hdone : (componentDidUpdate prevLen newLen heights rTop rCH
      (onScroll N hv ih env s)).status = Status.MEASURE_DONE := by
    rw [componentDidUpdate_measure prevLen newLen heights rTop rCH _ hstart]
  refine ⟨hstart, hkeep, ?_, hdone, ?_⟩
  · simp only [render]
    rw [if_neg hvirt]
    dsimp only
    rw [hstart]
    simp
  · simp only [render]
    rw [if_neg hvirt]
    dsimp only
    rw [hdone]
    simp

/-- C1 (amended) witness: the concrete 1000-item configuration at the initial
scroll of the mount cycle. -/
theorem c1_measure_start_renders_zero_witness :
    (onScroll 1000 300 15 ⟨0, 15000, 300⟩ initialState).status =
      Status.MEASURE_START ∧
    (onScroll 1000 300 15 ⟨0, 15000, 300⟩ initialState).startItemTop =
      initialState.startItemTop ∧
    (render c1Props (onScroll 1000 300 15 ⟨0, 15000, 300⟩ initialState)).fillerOffset
      = 0 ∧
    (componentDidUpdate 1000 1000 uniformHeights 0 300
        (onScroll 1000 300 15 ⟨0, 15000, 300⟩ initialState)).status =
      Status.MEASURE_DONE ∧
    (render c1Props (componentDidUpdate 1000 1000 uniformHeights 0 300
        (onScroll 1000 300 15 ⟨0, 15000, 300⟩ initialState))).fillerOffset =
      (componentDidUpdate 1000 1000 uniformHeights 0 300
        (onScroll 1000 300 15 ⟨0, 15000, 300⟩ initialState)).startItemTop :=
  c1_measure_start_renders_zero c1Props 300 rfl (by norm_num [c1Props]) ⟨0, 15000, 300⟩
    initialState (by simp [initialState]) 1000 1000 uniformHeights 0 300

/-- C2: after the data source shrinks from 1000 to 10 items, `componentDidUpdate`
returns the state unchanged: the stale `startIndex = 500` remains, violating
`startIndex ≤ newLength − 1 = 9`, so the claimed re-clamping does not happen. -/
theorem c2_no_reclamp_on_shrink :
    componentDidUpdate 1000 10 (fun _ => some 15) 7500 300 c2StaleState = c2StaleState ∧
    (componentDidUpdate 1000 10 (fun _ => some 15) 7500 300 c2StaleState).startIndex = 500 ∧
    ¬ (componentDidUpdate 1000 10 (fun _ => some 15) 7500 300 c2StaleState).startIndex ≤
        (10 : ℤ) - 1 := by
  refine ⟨rfl, rfl, by decide⟩

/-- C3: mounting crashes on the fast path.  `componentDidMount` unconditionally
dereferences `this.listRef.current`, but the fast-path `render` (taken when
`height` is absent, or when all items fit: `5 × 15 = 75 ≤ 100`) never attaches
the ref, so the mount throws a `TypeError` (modelled as `none`) instead of
completing — refuting "mounting never crashes for every configuration". -/
theorem c3_fastpath_mount_crash :
    componentDidMount { dataLength := 5, height := none, itemHeight := 15 }
      ⟨0, 75, 50⟩ initialState = none ∧
    componentDidMount { dataLength := 5, height := some 100, itemHeight := 15 }
      ⟨0, 75, 50⟩ initialState = none := by
  refine ⟨rfl, ?_⟩
  simp only [componentDidMount]
  rw [if_pos (by norm_num : ((5 : ℕ) : ℚ) * 15 ≤ 100)]

/-- C7: whenever the fast-path condition of `render` holds (`height` absent, or
`dataSource.length * itemHeight ≤ height`), the output renders exactly the
indices `0, …, N−1` in order, attaches no scroll listener, and is independent
of the component state — the measurement state machine is never engaged. -/
theorem c7_fast_path_render (props : ListProps) (s sAlt : ListState)
    (hfast : props.height = none ∨
      ∃ hv, props.height = some hv ∧ (props.dataLength : ℚ) * props.itemHeight ≤ hv) :
    (render props s).renderedIndices = List.range props.dataLength ∧
    (render props s).hasScrollListener = false ∧
    (render props s).kind = RenderKind.fastPath ∧
    render props s = render props sAlt := by
  obtain ⟨N, ho, ih⟩ := props
  rcases hfast with h | ⟨hv, heq, hle⟩
  · cases h
    exact ⟨rfl, rfl, rfl, rfl⟩
  · cases heq
    refine ⟨?_, ?_, ?_, ?_⟩ <;> simp [render, if_pos hle]

/-- C7 witness: three items of height 15 fit into a viewport of height 100, so
the fast path renders `[0, 1, 2]` with no listener, regardless of state. -/
theorem c7_fast_path_render_witness :
    (render ⟨3, some 100, 15⟩ initialState).renderedIndices = List.range 3 ∧
    (render ⟨3, some 100, 15⟩ initialState).hasScrollListener = false ∧
    (render ⟨3, some 100, 15⟩ initialState).kind = RenderKind.fastPath ∧
    render ⟨3, some 100, 15⟩ initialState =
      render ⟨3, some 100, 15⟩ { initialState with startIndex := 2 } :=
  c7_fast_path_render ⟨3, some 100, 15⟩ initialState
    { initialState with startIndex := 2 } (Or.inr ⟨100, rfl, by norm_num⟩)

/-- C8: a scroll event whose reported `scrollTop` equals the one stored in
state returns without modifying any field of the state: no new measure cycle
starts. -/
theorem c8_unchanged_scrolltop_skips (dataLength : ℕ) (height itemHeight : ℚ)
    (env : ScrollEnv) (s : ListState) (h : some env.scrollTop = s.scrollTop) :
    onScroll dataLength height itemHeight env s = s := by
  rw [onScroll, if_pos h]

/-- C8 witness: with `scrollTop = 42` already in state, a scroll event reporting
`42` leaves the state untouched. -/
theorem c8_unchanged_scrolltop_skips_witness :
    onScroll 5 10 15 ⟨42, 100, 10⟩ { initialState with scrollTop := some 42 } =
      { initialState with scrollTop := some 42 } :=
  c8_unchanged_scrolltop_skips 5 10 15 ⟨42, 100, 10⟩
    { initialState with scrollTop := some 42 } rfl

/-- C4: when every height-cache entry equals the uniform height `h` and the
scroll percentage `p` and located index `ii` with its offset fraction are
consistent with that uniform geometry (`scrollTop = p·(N·h − clientHeight)`,
`off = p·N − ii`), the corrected top offset computed by the backward walk is
exactly `startIndex × h`. -/
theorem c4_uniform_corrected_top (heights : ℤ → Option ℚ) (h cH scrollTop p off : ℚ)
    (N : ℕ) (ii si : ℤ)
    (hu : ∀ i, heights i = some h)
    (hoff : off = p * (N : ℚ) - (ii : ℚ))
    (hst : scrollTop = p * ((N : ℚ) * h - cH))
    (hle : si ≤ ii) :
    correctedTop heights scrollTop cH p off ii si = (si : ℚ) * h := by
  have h2 : ((ii - si).toNat : ℤ) = ii - si := Int.toNat_of_nonneg (sub_nonneg.mpr hle)
  have hn : (((ii - si).toNat : ℕ) : ℚ) = (ii : ℚ) - (si : ℚ) := by
    exact_mod_cast congrArg (fun z : ℤ => (z : ℚ)) h2
  have hq : correctedTop heights scrollTop cH p off ii si =
      scrollTop + p * cH - off * ((heights ii).getD 0) -
        subtractTotal heights si (ii - si).toNat := rfl
  rw [hq, hu ii, subtractTotal_const heights h si hu, hn, hoff, hst]
  simp only [Option.getD_some]
  ring

/-- C4 witness: ten items of height 15, viewport 30, scrolled halfway
(`p = 1/2`, `scrollTop = 60`), located item 5 with zero offset fraction,
window starting at 3: the corrected offset is `3 × 15 = 45`. -/
theorem c4_uniform_corrected_top_witness :
    correctedTop (fun _ => some 15) 60 30 (1/2) 0 5 3 = ((3 : ℤ) : ℚ) * 15 :=
  c4_uniform_corrected_top (fun _ => some 15) 15 30 60 (1/2) 0 10 5 3
    (fun _ => rfl) (by norm_num) (by norm_num) (by norm_num)

/-- C5: after an accepted scroll event on a non-empty data source, with the DOM
geometry well-formed (`0 ≤ scrollTop ≤ scrollHeight − clientHeight`) and
non-degenerate nominal sizes, the stored window bounds satisfy
`0 ≤ startIndex ≤ itemIndex ≤ endIndex ≤ dataSourceLength − 1`. -/
theorem c5_window_bounds (N : ℕ) (hN : 1 ≤ N) (height itemHeight : ℚ)
    (hh0 : 0 ≤ height) (hih : 0 < itemHeight) (env : ScrollEnv) (s : ListState)
    (hacc : ¬ some env.scrollTop = s.scrollTop)
    (h0 : 0 ≤ env.scrollTop) (h1 : env.scrollTop ≤ env.scrollHeight - env.clientHeight) :
    0 ≤ (onScroll N height itemHeight env s).startIndex ∧
    (onScroll N height itemHeight env s).startIndex ≤
      (onScroll N height itemHeight env s).itemIndex ∧
    (onScroll N height itemHeight env s).itemIndex ≤
      (onScroll N height itemHeight env s).endIndex ∧
    (onScroll N height itemHeight env s).endIndex ≤ (N : ℤ) - 1 := by
  obtain ⟨hp0, hp1⟩ := getScrollPercentage_mem env h0 h1
  obtain ⟨hi0, hi1⟩ := getLocationItem_index_bounds (getScrollPercentage env) N hN
  have hv : (0 : ℤ) ≤ ⌈height / itemHeight⌉ := Int.ceil_nonneg (div_nonneg hh0 hih.le)
  have hvq : (0 : ℚ) ≤ ((⌈height / itemHeight⌉ : ℤ) : ℚ) := by exact_mod_cast hv
  have hb : (0 : ℤ) ≤ ⌈getScrollPercentage env * ((⌈height / itemHeight⌉ : ℤ) : ℚ)⌉ :=
    Int.ceil_nonneg (mul_nonneg hp0 hvq)
  have ha : (0 : ℤ) ≤ ⌈(1 - getScrollPercentage env) * ((⌈height / itemHeight⌉ : ℤ) : ℚ)⌉ :=
    Int.ceil_nonneg (mul_nonneg (by linarith) hvq)
  rw [onScroll_accepted N height itemHeight env s hacc]
  dsimp only
  exact ⟨le_max_left _ _, max_le hi0 (by omega), le_min hi1 (by omega), min_le_left _ _⟩

/-- C5 witness: 1000 items, viewport 300, item height 15, scrolled to 150 of
14700: the freshly stored window bounds are ordered and in range. -/
theorem c5_window_bounds_witness :
    0 ≤ (onScroll 1000 300 15 ⟨150, 15000, 300⟩ initialState).startIndex ∧
    (onScroll 1000 300 15 ⟨150, 15000, 300⟩ initialState).startIndex ≤
      (onScroll 1000 300 15 ⟨150, 15000, 300⟩ initialState).itemIndex ∧
    (onScroll 1000 300 15 ⟨150, 15000, 300⟩ initialState).itemIndex ≤
      (onScroll 1000 300 15 ⟨150, 15000, 300⟩ initialState).endIndex ∧
    (onScroll 1000 300 15 ⟨150, 15000, 300⟩ initialState).endIndex ≤ ((1000 : ℕ) : ℤ) - 1 :=
  c5_window_bounds 1000 (by norm_num) 300 15 (by norm_num) (by norm_num)
    ⟨150, 15000, 300⟩ initialState (by simp [initialState]) (by norm_num) (by norm_num)

/-- C6: (i) whenever neither window bound is clamped by the data bounds, the
selected window `[startIndex, endIndex]` holds at least
`⌈viewportHeight / nominalItemHeight⌉` items; (ii) in the concrete scenario
`N = 1000`, `itemHeight = 15`, `height = 300`, at `scrollTop = 0` the located
index is `0` and the window holds at least 20 items. -/
theorem c6_window_size :
    (∀ (N : ℕ) (height itemHeight : ℚ) (env : ScrollEnv) (s : ListState),
      ¬ some env.scrollTop = s.scrollTop →
      0 ≤ (getLocationItem (getScrollPercentage env) N).1 -
          ⌈getScrollPercentage env * ((⌈height / itemHeight⌉ : ℤ) : ℚ)⌉ →
      (getLocationItem (getScrollPercentage env) N).1 +
          ⌈(1 - getScrollPercentage env) * ((⌈height / itemHeight⌉ : ℤ) : ℚ)⌉ ≤
        (N : ℤ) - 1 →
      ⌈height / itemHeight⌉ ≤
        (onScroll N height itemHeight env s).endIndex -
          (onScroll N height itemHeight env s).startIndex + 1) ∧
    (onScroll 1000 300 15 ⟨0, 15000, 300⟩ initialState).itemIndex = 0 ∧
    20 ≤ (onScroll 1000 300 15 ⟨0, 15000, 300⟩ initialState).endIndex -
        (onScroll 1000 300 15 ⟨0, 15000, 300⟩ initialState).startIndex + 1 := by
  have hscen : onScroll 1000 300 15 ⟨0, 15000, 300⟩ initialState =
      { initialState with
        status := Status.MEASURE_START
        scrollTop := some 0
        scrollPtg := 0
        itemIndex := 0
        itemOffsetPtg := 0
        startIndex := 0
        endIndex := 20 } := by
    rw [onScroll_accepted 1000 300 15 ⟨0, 15000, 300⟩ initialState (by simp [initialState])]
    have hp : getScrollPercentage ⟨0, 15000, 300⟩ = 0 := by
      rw [getScrollPercentage]
      norm_num
    rw [hp]
    have hloc : getLocationItem 0 1000 = (0, 0) := by
      rw [getLocationItem]
      norm_num
    rw [hloc]
    have hv : (⌈(300 : ℚ) / 15⌉ : ℤ) = 20 := by norm_num
    rw [hv]
    norm_num
  refine ⟨?_, by rw [hscen], by rw [hscen]; norm_num⟩
  intro N height itemHeight env s hacc hL hR
  rw [onScroll_accepted N height itemHeight env s hacc]
  dsimp only
  rw [max_eq_right hL, min_eq_right hR]
  have hceil : ⌈height / itemHeight⌉ ≤
      ⌈getScrollPercentage env * ((⌈height / itemHeight⌉ : ℤ) : ℚ)⌉ +
        ⌈(1 - getScrollPercentage env) * ((⌈height / itemHeight⌉ : ℤ) : ℚ)⌉ := by
    have hsplit : ((⌈height / itemHeight⌉ : ℤ) : ℚ) =
        getScrollPercentage env * ((⌈height / itemHeight⌉ : ℤ) : ℚ) +
          (1 - getScrollPercentage env) * ((⌈height / itemHeight⌉ : ℤ) : ℚ) := by
      ring
    calc ⌈height / itemHeight⌉
        = ⌈((⌈height / itemHeight⌉ : ℤ) : ℚ)⌉ := (Int.ceil_intCast _).symm
      _ = ⌈getScrollPercentage env * ((⌈height / itemHeight⌉ : ℤ) : ℚ) +
            (1 - getScrollPercentage env) * ((⌈height / itemHeight⌉ : ℤ) : ℚ)⌉ := by
          rw [← hsplit]
      _ ≤ _ := Int.ceil_add_le _ _
  omega

/-- C6 witness: at `scrollTop = 150` with `N = 1000`, `height = 300`,
`itemHeight = 15`, neither bound clamps (`9 ≥ 0`, `30 ≤ 999`) and the window
holds at least `⌈300/15⌉ = 20` items. -/
theorem c6_window_size_witness :
    ⌈(300 : ℚ) / 15⌉ ≤
      (onScroll 1000 300 15 ⟨150, 15000, 300⟩ initialState).endIndex -
        (onScroll 1000 300 15 ⟨150, 15000, 300⟩ initialState).startIndex + 1 := by
  have hp : getScrollPercentage ⟨150, 15000, 300⟩ = 1/98 := by
    rw [getScrollPercentage]
    norm_num
  have hloc : getLocationItem ((1 : ℚ)/98) 1000 = (10, 10/49) := by
    rw [getLocationItem]
    norm_num
  have hv : (⌈(300 : ℚ) / 15⌉ : ℤ) = 20 := by norm_num
  refine c6_window_size.1 1000 300 15 ⟨150, 15000, 300⟩ initialState
    (by simp [initialState]) ?_ ?_
  · rw [hp, hloc, hv]
    have hb : (⌈(1 : ℚ)/98 * ((20 : ℤ) : ℚ)⌉ : ℤ) = 1 := ceil_eval _ 1 (by norm_num) (by norm_num)
    rw [hb]
    norm_num
  · rw [hp, hloc, hv]
    have ha : (⌈(1 - (1 : ℚ)/98) * ((20 : ℤ) : ℚ)⌉ : ℤ) = 20 :=
      ceil_eval _ 20 (by norm_num) (by norm_num)
    rw [ha]
    norm_num

/-- C9: a zero-height viewport with a non-empty data source: an accepted scroll
event still yields a window of size at least one, and the Percentage Mapper
never divides by zero (it returns `0` outright when there is no scroll range,
and otherwise its divisor is nonzero). -/
theorem c9_zero_viewport (N : ℕ) (hN : 1 ≤ N) (itemHeight : ℚ) (hih : 0 < itemHeight)
    (env : ScrollEnv) (hch : env.clientHeight = 0) (s : ListState)
    (hacc : ¬ some env.scrollTop = s.scrollTop) :
    1 ≤ (onScroll N 0 itemHeight env s).endIndex -
        (onScroll N 0 itemHeight env s).startIndex + 1 ∧
    (env.scrollHeight = env.clientHeight → getScrollPercentage env = 0) ∧
    (env.scrollHeight ≠ env.clientHeight → env.scrollHeight - env.clientHeight ≠ 0) := by
  obtain ⟨hi0, hi1⟩ := getLocationItem_index_bounds (getScrollPercentage env) N hN
  refine ⟨?_, fun he => by rw [getScrollPercentage, if_pos he],
    fun hne => sub_ne_zero.mpr hne⟩
  rw [onScroll_accepted N 0 itemHeight env s hacc]
  dsimp only
  have hv : (⌈(0 : ℚ) / itemHeight⌉ : ℤ) = 0 := by rw [zero_div, Int.ceil_zero]
  rw [hv]
  simp only [Int.cast_zero, mul_zero, Int.ceil_zero, sub_zero, add_zero]
  rw [max_eq_right hi0, min_eq_right hi1]
  omega

/-- C9 witness: a single item, viewport height zero, scroll offset 5 of a
10-pixel content: the window still holds one item and the mapper is safe. -/
theorem c9_zero_viewport_witness :
    1 ≤ (onScroll 1 0 15 ⟨5, 10, 0⟩ initialState).endIndex -
        (onScroll 1 0 15 ⟨5, 10, 0⟩ initialState).startIndex + 1 ∧
    ((10 : ℚ) = 0 → getScrollPercentage ⟨5, 10, 0⟩ = 0) ∧
    ((10 : ℚ) ≠ 0 → (10 : ℚ) - 0 ≠ 0) :=
  c9_zero_viewport 1 (by norm_num) 15 (by norm_num) ⟨5, 10, 0⟩ rfl initialState
    (by simp [initialState])

/-- C10: `getItemKey` falls back to the numeric index whenever the data source
holds no (truthy) item at the index, even with an `itemKey` field configured;
the configured field is read exactly when the item is present (and the field
name is truthy). -/
theorem c10_item_key_fallback :
    (∀ (ds : List (Option (String → ℤ))) (k : String) (index : ℕ),
      ds.getD index none = none →
      getItemKey ds (some k) index = ItemKeyVal.idx index) ∧
    (∀ (ds : List (Option (String → ℤ))) (k : String) (index : ℕ) (item : String → ℤ),
      ds.getD index none = some item → ¬ k = "" →
      getItemKey ds (some k) index = ItemKeyVal.field (item k)) := by
  constructor
  · intro ds k index h
    unfold getItemKey
    rw [h]
  · intro ds k index item h hk
    unfold getItemKey
    rw [h]
    exact if_neg hk

/-- C10 witness: a one-element data source whose single slot is missing yields
the index key `0` even though the key field name `id` is configured. -/
theorem c10_item_key_fallback_witness :
    getItemKey [none] (some "id") 0 = ItemKeyVal.idx 0 :=
  c10_item_key_fallback.1 [none] "id" 0 rfl

end VirtualList
